import Mathlib

/-!
Shallow embedding of loader.cpp (the troubleshoot bootstrap).

Source: `src/Parsers/Cpp/EnumGeneratorTest/CppSources/loader.cpp`.

Conventions of the embedding.

* `wchar_t` / `char16_t` are 16 bit code units; a code unit is a `Nat`, and
  `std::wstring` / `xyz::string16_t` is a `List Nat` (a `std::wstring` may hold
  the unit `0`).
* A `const wchar_t*` C string (the constants of the file, `argv[i]`,
  `argName`) is modelled by its content, the units before the terminator.
* `s.c_str()` read again as a C string keeps the units before the first `0`:
  this is `c_str`.
* Calls into the platform or into headers that are not part of the sources
  (`CommandLineToArgvW`, the registry, `HostFxrModule`, the file system, the
  tracer channel) are parameters of the definitions.
-/

namespace Loader

/-- A wide string: the sequence of its 16 bit code units. -/
abbrev WString := List Nat

/-- A wide string literal `L"..."` (the literals of the file are ASCII). -/
def L (s : String) : WString := s.toList.map Char.toNat

/-- A wide character literal such as `L'='`. -/
def wchar (c : Char) : Nat := c.toNat

/-- The content of `s.c_str()` read as a C string: the units before the first `0`. -/
def c_str (s : WString) : WString := s.takeWhile (fun c => c != 0)

/-! ## Constants (loader.cpp 59-62) -/

def TracePathOption : WString := L "--trace-path"
def TraceLevelOption : WString := L "--trace-level"
def ExecutableName : WString := L "troubleshoot.exe"

/-! ## C and C++ library primitives used by the file -/

/-- The function `std::wstring::_Starts_with(const wchar_t*)`. -/
def starts_with (s pre : WString) : Bool := pre.isPrefixOf s

/-- The function `::wcsstr(hay, needle)`: the offset of the first occurrence of
`needle` in `hay`, `none` for the null pointer. -/
def wcsstr : WString → WString → Option Nat
  | [], needle => if starts_with [] needle then some 0 else none
  | c :: hay, needle =>
      if starts_with (c :: hay) needle then some 0
      else (wcsstr hay needle).map (fun k => k + 1)

/-- The function `std::wstring::find_first_of(ch, pos)`: the least index `i ≥ pos` with
`s[i] = ch`; `none` is `std::wstring::npos`. -/
def find_first_of : WString → Nat → Nat → Option Nat
  | [], _, _ => none
  | c :: s, ch, 0 => if c = ch then some 0 else (find_first_of s ch 0).map (fun k => k + 1)
  | _ :: s, ch, pos + 1 => (find_first_of s ch pos).map (fun k => k + 1)

/-- The function `std::wstring::substr(pos)` for `pos ≤ size()` (the only way it is
called here, see `find_first_of_lt`): the units from `pos` on. -/
def substr (s : WString) (pos : Nat) : WString := s.drop pos

/-! ## GetCmdLineArguments (loader.cpp 107-129) -/

/-- The loop `for (int i = 1; i < argc; ++i) args.emplace_back(argv[i]);`
started at index `i` with `n` iterations left. -/
def argLoop (argv : List WString) : Nat → Nat → List WString → List WString
  | _, 0, args => args
  | i, n + 1, args => argLoop argv (i + 1) n (args ++ [argv.getD i []])

/-- The function `GetCmdLineArguments`. `argv` and `argc` are what the platform
tokenizer `::CommandLineToArgvW(lpCmdLine, &argc)` yields: `argv = none` is the
null pointer, and an element of `argv` is the content of the C string
`argv[i]` (an index past the array reads as the empty string; the tokenizer
yields `argc` elements). -/
def GetCmdLineArguments (argv : Option (List WString)) (argc : Int) : List WString :=
  match argv with
  | none => []
  | some argv =>
      if argc > 0 then
        let args : List WString :=
          if (wcsstr (argv.getD 0 []) ExecutableName).isNone then [argv.getD 0 []] else []
        argLoop argv 1 (argc.toNat - 1) args
      else []

/-! ## GetArgumentValue (loader.cpp 151-169) -/

/-- The function `GetArgumentValue`; the empty string is the `return {}`. -/
def GetArgumentValue (args : List WString) (argName : WString) : WString :=
  match args.find? (fun arg => starts_with arg argName) with
  | none => []
  | some argument =>
      match find_first_of argument (wchar '=') argName.length with
      | none => []
      | some separatorPos => substr argument (separatorPos + 1)

/-! ## TraceLevelFromString (loader.cpp 181-196) -/

/-- The enumeration `xyz::ITracer::TraceLevel` (declared in a header that is not part
of the sources; the eight enumerators used by the file). -/
inductive TraceLevel
  | tlNON | tlALW | tlCRT | tlERR | tlWRN | tlIMP | tlINF | tlDBG
  deriving DecidableEq, Repr

/-- The local `std::map` of `TraceLevelFromString` (its keys are pairwise
distinct, so the lookup does not depend on the order of the entries). -/
def traceLevelToString : List (WString × TraceLevel) :=
  [ (L "NON", TraceLevel.tlNON),
    (L "ALW", TraceLevel.tlALW),
    (L "CRT", TraceLevel.tlCRT),
    (L "ERR", TraceLevel.tlERR),
    (L "WARN", TraceLevel.tlWRN),
    (L "IMP", TraceLevel.tlIMP),
    (L "INF", TraceLevel.tlINF),
    (L "DBG", TraceLevel.tlDBG) ]

/-- The function `TraceLevelFromString`. -/
def TraceLevelFromString (traceLevelStr : WString) : TraceLevel :=
  match traceLevelToString.lookup traceLevelStr with
  | some level => level
  | none => TraceLevel.tlINF


/-! ## GetDotnetPath, ShouldDeleteTraceOnExit (loader.cpp 79-97) -/

/-- The function `GetDotnetPath`. `regOpen` tells whether `regKey.Open` succeeded,
`regQueryValue` is the value `regKey.QueryValue` reads (`none`: the query failed). -/
def GetDotnetPath (regOpen : Bool) (regQueryValue : Option WString) : WString :=
  if !regOpen then []
  else
    match regQueryValue with
    | none => []
    | some dotNetPath => dotNetPath

/-- The function `ShouldDeleteTraceOnExit`; `envValue` is the value of the environment
string `ENV_SUPPORT_TOOLS_DISABLE_CLEARING_TRACES`. -/
def ShouldDeleteTraceOnExit (envValue : WString) : Bool := envValue != L "1"

/-! ## Argument marshalling (loader.cpp 99-105, 171-179) -/

/-- The function `AppendTracesPathToArgs`. A `CComBSTR` is modelled by its content;
`xyz::text::Cast<std::wstring>` keeps the code units. -/
def AppendTracesPathToArgs (fullTracePath : WString) (result : List WString) :
    List WString :=
  let result := result ++ [TracePathOption]
  let tracePathW : WString := fullTracePath
  result ++ [c_str tracePathW]

/-- The function `FillBstrArguments`. -/
def FillBstrArguments (args : List WString) (bstrArgs : List WString) : List WString :=
  args.foldl (fun acc arg => acc ++ [c_str arg]) bstrArgs

/-! ## GetFullTracePath (loader.cpp 297-309) -/

/-- Modelled from the spec: the type `xyz::DateTime` is declared in a header that is
not part of the sources; the spec names the calendar fields of the creation
instant (day, month, year, hour, minute, second). -/
structure DateTime where
  year : Nat
  month : Nat
  day : Nat
  hour : Nat
  minute : Nat
  second : Nat
  deriving DecidableEq, Repr

/-- The code unit of the decimal digit `d`. -/
def digit (d : Nat) : Nat := wchar '0' + d % 10

/-- A field printed with two decimal digits. -/
def twoDigits (n : Nat) : WString := [digit (n / 10), digit n]

/-- A field printed with four decimal digits. -/
def fourDigits (n : Nat) : WString :=
  [digit (n / 1000), digit (n / 100), digit (n / 10), digit n]

/-- Modelled from the spec: `xyz::format_datetime` is not part of the sources. The
spec gives the timestamp of the file name as `dd.mm.YYYY_HH.MM.SS`: two-digit
day, two-digit month, four-digit year, two-digit hour, minute and second (the
format string of the source is `%dd.%mm.%YY_%HH.%MM.%SS`). -/
def format_datetime (t : DateTime) : WString :=
  twoDigits t.day ++ L "." ++ twoDigits t.month ++ L "." ++ fourDigits t.year ++ L "_"
    ++ twoDigits t.hour ++ L "." ++ twoDigits t.minute ++ L "." ++ twoDigits t.second

/-- Modelled from the spec: `xyz::filesystem::PathConcatenate` is not part of the
sources. The spec puts the file `under rootDirectory` and its scenario joins
`C:\logs` and the file name with one backslash. -/
def PathConcatenate (root name : WString) : WString := root ++ L "\\" ++ name

/-- Modelled from the spec: the stream insertion of a `uint32_t` is not part of the
sources; the spec prints the process id in decimal. -/
def decimal (n : Nat) : WString := (Nat.toDigits 10 n).map Char.toNat

/-- The function `GetFullTracePath`. `currentTime` is `xyz::DateTime::Current()` and
`processId` is `xyz::windows::this_process::GetID()`. -/
def GetFullTracePath (traceRoot : WString) (currentTime : DateTime) (processId : Nat) :
    WString :=
  let pid := processId % 2 ^ 32
  let traceFileName : WString :=
    L "troubleshoot_" ++ decimal pid ++ L "_" ++ format_datetime currentTime ++ L ".log"
  PathConcatenate traceRoot traceFileName

/-! ## NativeTracerImpl (loader.cpp 200-295) -/

/-- The tracer behind `xyz::ITracer` as the bridge sees it: the answers of
`ShouldTrace(level)` and of `XYZ_SUCCEEDED(PrepareMsg(level, &msg, size))`. -/
structure ITracer where
  ShouldTrace : Nat → Bool
  PrepareMsg : Nat → Nat → Bool

/-- The flusher behind `xyz::tracer::IChannelFlusher` (its result is ignored). -/
structure IChannelFlusher where
  Flush : Bool

/-- A call that reaches the Diagnostic Channel. -/
inductive ChannelCall
  | ShouldTrace (level : Nat)
  | PrepareMsg (level size : Nat)
  | TraceMsg (msg : List Nat) (size : Nat)
  | Flush
  deriving DecidableEq, Repr

/-- How a call of a bridge method ends: it returns, or it calls a method through
a null `objptr_t`. -/
inductive Outcome
  | returned
  | nullDereference
  deriving DecidableEq, Repr

/-- The data members of `NativeTracerImpl`; `none` is a null `objptr_t`. -/
structure NativeTracerImpl where
  m_tracer : Option ITracer
  m_flusher : Option IChannelFlusher

/-- The constructor `NativeTracerImpl()`: both pointers are null. -/
def NativeTracerImpl.new : NativeTracerImpl := ⟨none, none⟩

/-- The method `NativeTracerImpl::Init`. -/
def NativeTracerImpl.Init (_self : NativeTracerImpl) (tracer : Option ITracer)
    (flusher : Option IChannelFlusher) : NativeTracerImpl :=
  ⟨tracer, flusher⟩

/-- The method `NativeTracerImpl::Deinit`: `m_tracer.reset(); m_flusher.reset();`. -/
def NativeTracerImpl.Deinit (_self : NativeTracerImpl) : NativeTracerImpl :=
  ⟨none, none⟩

/-- The method `NativeTracerImpl::GetMaxTraceLevel`. -/
def NativeTracerImpl.GetMaxTraceLevel (_self : NativeTracerImpl) : TraceLevel :=
  TraceLevel.tlDBG

/-- The method `NativeTracerImpl::Trace`: how the call ends and the calls that reached the
channel, in order. `ConvertEx` is the UTF-16 to UTF-8 conversion (`none`: it
failed). -/
def NativeTracerImpl.Trace (self : NativeTracerImpl) (ConvertEx : WString → Option (List Nat))
    (level : Nat) (message : WString) : Outcome × List ChannelCall :=
  match self.m_tracer with
  | none => (Outcome.nullDereference, [])
  | some tracer =>
      if !tracer.ShouldTrace level then
        (Outcome.returned, [ChannelCall.ShouldTrace level])
      else
        match ConvertEx message with
        | none => (Outcome.returned, [ChannelCall.ShouldTrace level])
        | some utf8Message =>
            let size := utf8Message.length
            if tracer.PrepareMsg level size then
              (Outcome.returned,
                [ChannelCall.ShouldTrace level, ChannelCall.PrepareMsg level size,
                 ChannelCall.TraceMsg utf8Message size])
            else
              (Outcome.returned,
                [ChannelCall.ShouldTrace level, ChannelCall.PrepareMsg level size])

/-- The method `NativeTracerImpl::Flush`. -/
def NativeTracerImpl.Flush (self : NativeTracerImpl) : Outcome × List ChannelCall :=
  match self.m_flusher with
  | none => (Outcome.nullDereference, [])
  | some _ => (Outcome.returned, [ChannelCall.Flush])

/-- The function `CreateNativeTracer`; `createInstance` tells whether
`CComObject<NativeTracerImpl>::CreateInstance` succeeded, `none` is `nullptr`. -/
def CreateNativeTracer (createInstance : Bool) (tracer : Option ITracer)
    (flusher : Option IChannelFlusher) : Option NativeTracerImpl :=
  if !createInstance then none
  else some (NativeTracerImpl.new.Init tracer flusher)

/-! ## wWinMain (loader.cpp 327-418) -/

/-- An element of `rawArgs` (`const void*`): the `IUnknown` pointer of the bridge,
or a `BSTR` given by its content. -/
inductive RawArg
  | unknown
  | bstr (content : WString)
  deriving DecidableEq, Repr

/-- The type `component_entry_point_fn`: the managed entry point reads
`argc` pointers and returns an `int`. -/
abbrev component_entry_point_fn := List RawArg → Int → Int

/-- The structure `product_platform::ui::core_clr::HostFxrModuleParameters`, as wWinMain fills it. -/
structure HostFxrModuleParameters where
  p0 : WString
  productRoot : WString
  version : WString
  runtimeConfig : WString
  assembly : WString
  typeName : WString
  methodName : WString
  deriving DecidableEq, Repr

/-- The cast `static_cast<int32_t>(n)` of a `size_t`. -/
def static_cast_int32 (n : Nat) : Int :=
  if n % 2 ^ 32 < 2 ^ 31 then ((n % 2 ^ 32 : Nat) : Int)
  else ((n % 2 ^ 32 : Nat) : Int) - 2 ^ 32

/-- The enumeration `tool_exit_codes::Enum`. -/
def tool_exit_codes.Regular : Int := 0
def tool_exit_codes.Error : Int := 2
def tool_exit_codes.WindowsShutdown : Int := 3
def tool_exit_codes.ForceShutdown : Int := 4
def tool_exit_codes.AnotherInstanceRunning : Int := 5

/-- What `wWinMain` reads from outside the file. -/
structure World where
  /-- The value `GetEnvironmentString(ENV_PRODUCTROOT)`. -/
  productRoot : WString
  /-- The value `GetEnvironmentString(ENV_TRACEROOT)`. -/
  traceRoot : WString
  /-- The value `xyz::DateTime::Current()` read by `GetFullTracePath`. -/
  currentTime : DateTime
  /-- The value `xyz::windows::this_process::GetID()`. -/
  processId : Nat
  /-- The platform tokenizer. -/
  CommandLineToArgvW : WString → Option (List WString) × Int
  /-- Whether `regKey.Open` succeeds. -/
  regOpen : Bool
  /-- The value `regKey.QueryValue(DotNetValueName, _)` reads, `none` on failure. -/
  regQueryValue : Option WString
  /-- The tracer `xyz::trace::CreateTracer(fileChannel)` yields (stored in `g_tracer`). -/
  tracer : ITracer
  /-- The flusher `query_interface_cast<IChannelFlusher>(fileChannel)` yields. -/
  flusher : Option IChannelFlusher
  /-- Whether `CComObject<NativeTracerImpl>::CreateInstance` succeeds. -/
  createInstance : Bool
  /-- The member `HostFxrModule(dotNetPath, params).GetStartupFunction(entryPoint)`:
  `none` when it returns false. -/
  GetStartupFunction : WString → HostFxrModuleParameters → Option component_entry_point_fn
  /-- Whether `xyz::sOk == xyz::filesystem::IsExists(path)` when wWinMain asks. -/
  IsExists : WString → Bool
  /-- The environment string `ENV_SUPPORT_TOOLS_DISABLE_CLEARING_TRACES`. -/
  disableClearingTraces : WString
  /-- Whether `xyz::filesystem::RemoveFile(path)` succeeds. -/
  RemoveFile : WString → Bool

/-- The text of a `LOADER_TRACE_INFO()` / `LOADER_TRACE_ERROR()` line. -/
inductive LoaderMsg
  | launching (lpCmdLine : WString)
  | dotnetPath (dotNetPath : WString)
  | failedToCreateNativeTracer
  | hostModuleCreated
  | failedToGetEntryPoint
  | callingEntryPoint
  | exitedWithCode (code : Int)
  deriving DecidableEq, Repr

/-- What `wWinMain` does that is visible outside, in the order it is done. -/
inductive Event
  | FixDefaultDllDirectories
  | CoInitializeEx
  | CreateFileChannel (traceLevel : TraceLevel) (traceFilePath : WString)
  | CreateTracer
  | TraceInfo (msg : LoaderMsg)
  | TraceError (msg : LoaderMsg)
  | CreateNativeTracer (ok : Bool)
  | HostFxrModule (dotNetPath : WString) (params : HostFxrModuleParameters)
  | GetStartupFunction (ok : Bool)
  | entryPoint (rawArgs : List RawArg) (argc : Int)
  | Deinit
  /-- The destructor of `hostModule` at the end of the block. -/
  | destroyHostModule
  /-- The destructor of `tracerPtr` (`Release` of the bridge). -/
  | releaseTracerPtr
  /-- The destructor of the local `flusher`. -/
  | releaseFlusher
  /-- The local `fileChannel` goes out of scope. -/
  | releaseFileChannel
  /-- The scope guard runs `::CoUninitialize()`. -/
  | CoUninitialize
  | g_tracer_reset
  | IsExists (path : WString)
  | RemoveFile (path : WString) (ok : Bool)
  deriving DecidableEq, Repr

/-- The vector `rawArgs` of wWinMain (loader.cpp 372-380). -/
def buildRawArgs (fullTracePath : WString) (args : List WString) : List RawArg :=
  let bstrArgs : List WString := []
  let bstrArgs := AppendTracesPathToArgs fullTracePath bstrArgs
  let bstrArgs := FillBstrArguments args bstrArgs
  [RawArg.unknown] ++ bstrArgs.map RawArg.bstr

/-- The value `params` of wWinMain (loader.cpp 382-390). -/
def hostParams (productRoot : WString) : HostFxrModuleParameters :=
  { p0 := L "",
    productRoot := productRoot,
    version := L "8.0.",
    runtimeConfig := L "troubleshoot.runtimeconfig.json",
    assembly := L "troubleshoot.dll",
    typeName := L "KasperskyLab.UI.Troubleshooting.Program, troubleshoot",
    methodName := L "UnmanagedEntryPoint" }

/-- The function `wWinMain`: the value it returns and the events of the run.
The locals of the inner block are destroyed in reverse order of declaration
when the block is left, by `return 1` or at its end; the scope guard, declared
first, runs last. The test `exitCode == tool_exit_codes::Regular` on the cast
exit code is the test `managedExitCode = 0`, and `&&` evaluates `IsExists` only
after it. -/
def wWinMain (w : World) (lpCmdLine : WString) : Int × List Event :=
  let productRoot := w.productRoot
  let traceRoot := w.traceRoot
  let fullTracePath := GetFullTracePath traceRoot w.currentTime w.processId
  let traceFilePath := fullTracePath
  let tokens := w.CommandLineToArgvW lpCmdLine
  let args := GetCmdLineArguments tokens.1 tokens.2
  let traceLevelStr := GetArgumentValue args TraceLevelOption
  let traceLevel := TraceLevelFromString traceLevelStr
  let dotNetPath := GetDotnetPath w.regOpen w.regQueryValue
  let ev : List Event :=
    [ Event.FixDefaultDllDirectories,
      Event.CoInitializeEx,
      Event.CreateFileChannel traceLevel traceFilePath,
      Event.CreateTracer,
      Event.TraceInfo (LoaderMsg.launching lpCmdLine),
      Event.TraceInfo (LoaderMsg.dotnetPath dotNetPath) ]
  match CreateNativeTracer w.createInstance (some w.tracer) w.flusher with
  | none =>
      (1, ev ++ [ Event.TraceError LoaderMsg.failedToCreateNativeTracer,
                  Event.CreateNativeTracer false,
                  Event.releaseFlusher, Event.releaseFileChannel, Event.CoUninitialize ])
  | some _nativeTracer =>
      let ev := ev ++ [Event.CreateNativeTracer true]
      let rawArgs := buildRawArgs fullTracePath args
      let params := hostParams productRoot
      let ev := ev ++ [ Event.HostFxrModule dotNetPath params,
                        Event.TraceInfo LoaderMsg.hostModuleCreated ]
      match w.GetStartupFunction dotNetPath params with
      | none =>
          (1, ev ++ [ Event.GetStartupFunction false,
                      Event.TraceError LoaderMsg.failedToGetEntryPoint,
                      Event.destroyHostModule, Event.releaseTracerPtr,
                      Event.releaseFlusher, Event.releaseFileChannel, Event.CoUninitialize ])
      | some entryPoint =>
          let argc := static_cast_int32 rawArgs.length
          let managedExitCode := entryPoint rawArgs argc
          let ev := ev ++ [ Event.GetStartupFunction true,
                            Event.TraceInfo LoaderMsg.callingEntryPoint,
                            Event.entryPoint rawArgs argc,
                            Event.TraceInfo (LoaderMsg.exitedWithCode managedExitCode),
                            Event.Deinit,
                            Event.destroyHostModule, Event.releaseTracerPtr,
                            Event.releaseFlusher, Event.releaseFileChannel,
                            Event.CoUninitialize,
                            Event.g_tracer_reset ]
          if managedExitCode = tool_exit_codes.Regular then
            let ev := ev ++ [Event.IsExists fullTracePath]
            if w.IsExists fullTracePath && ShouldDeleteTraceOnExit w.disableClearingTraces then
              (managedExitCode,
                ev ++ [Event.RemoveFile fullTracePath (w.RemoveFile fullTracePath)])
            else (managedExitCode, ev)
          else (managedExitCode, ev)

/-- Whether an event is a call of the managed entry point. -/
def Event.isEntryPoint : Event → Bool
  | Event.entryPoint _ _ => true
  | _ => false

/-- Whether an event is an attempt to delete a file. -/
def Event.isRemoveFile : Event → Bool
  | Event.RemoveFile _ _ => true
  | _ => false

/-- The local `fullTracePath` of a run of wWinMain. -/
def World.fullTracePath (w : World) : WString :=
  GetFullTracePath w.traceRoot w.currentTime w.processId

/-- The local `args` of a run of wWinMain. -/
def World.args (w : World) (lpCmdLine : WString) : List WString :=
  GetCmdLineArguments (w.CommandLineToArgvW lpCmdLine).1 (w.CommandLineToArgvW lpCmdLine).2

/-- The local `dotNetPath` of a run of wWinMain. -/
def World.dotNetPath (w : World) : WString := GetDotnetPath w.regOpen w.regQueryValue

/-- The local `rawArgs` of a run of wWinMain. -/
def World.rawArgs (w : World) (lpCmdLine : WString) : List RawArg :=
  buildRawArgs w.fullTracePath (w.args lpCmdLine)

/-- The result of `hostModule.GetStartupFunction(entryPoint)` in a run of wWinMain. -/
def World.startup (w : World) : Option component_entry_point_fn :=
  w.GetStartupFunction w.dotNetPath (hostParams w.productRoot)

/-! ## Concrete inputs -/

/-- A world used to evaluate the definitions: the tokenizer yields the tokens
`--trace-level=DBG` and `-q`, the registry holds a runtime path, the bridge is
created and the entry point returns its `argc`. -/
def demoWorld : World :=
  { productRoot := L "C:\\product",
    traceRoot := L "C:\\logs",
    currentTime := { year := 2024, month := 3, day := 5, hour := 10, minute := 22, second := 7 },
    processId := 4321,
    CommandLineToArgvW := fun _ => (some [L "--trace-level=DBG", L "-q"], 2),
    regOpen := true,
    regQueryValue := some (L "C:\\dotnet"),
    tracer := ⟨fun _ => true, fun _ _ => true⟩,
    flusher := some ⟨true⟩,
    createInstance := true,
    GetStartupFunction := fun _ _ => some (fun _ argc => argc),
    IsExists := fun _ => true,
    disableClearingTraces := L "",
    RemoveFile := fun _ => true }

/-- The world `demoWorld` with a registry whose key cannot be opened and whose value is
absent; the host module still resolves the entry point. -/
def registryFailsWorld : World :=
  { demoWorld with regOpen := false, regQueryValue := none }

/-- A bridge bound to a tracer that traces every level and to a flusher. -/
def liveBridge : NativeTracerImpl :=
  NativeTracerImpl.new.Init (some ⟨fun _ => true, fun _ _ => true⟩) (some ⟨true⟩)

/-! ## Lemmas on the string primitives -/

theorem starts_with_iff (s pre : WString) : starts_with s pre = true ↔ pre <+: s := by
  unfold starts_with
  exact List.isPrefixOf_iff_prefix

theorem wcsstr_isSome_iff (hay needle : WString) :
    (wcsstr hay needle).isSome = true ↔ needle <:+: hay := by
  induction hay with
  | nil =>
      unfold wcsstr
      by_cases h : starts_with [] needle = true
      · have h2 := (starts_with_iff [] needle).1 h
        simp [h, h2.isInfix]
      · have h2 : ¬ needle <+: [] := fun hp => h ((starts_with_iff [] needle).2 hp)
        simp only [h]
        simp only [List.prefix_nil] at h2
        simp [h2]
  | cons c hay ih =>
      unfold wcsstr
      by_cases h : starts_with (c :: hay) needle = true
      · have h2 := (starts_with_iff (c :: hay) needle).1 h
        simp [h, h2.isInfix]
      · have h2 : ¬ needle <+: c :: hay := fun hp => h ((starts_with_iff _ needle).2 hp)
        simp only [h]
        rw [List.infix_cons_iff]
        simp [h2, ih]

theorem wcsstr_isNone_iff (hay needle : WString) :
    (wcsstr hay needle).isNone = true ↔ ¬ needle <:+: hay := by
  rw [← wcsstr_isSome_iff]
  cases wcsstr hay needle <;> simp

theorem argLoop_eq (argv : List WString) (n : Nat) :
    ∀ (i : Nat) (args : List WString), i + n ≤ argv.length →
      argLoop argv i n args = args ++ (argv.drop i).take n := by
  induction n with
  | zero => intro i args _; simp [argLoop]
  | succ n ih =>
      intro i args h
      have hi : i < argv.length := by omega
      rw [argLoop, ih (i + 1) _ (by omega)]
      rw [List.getD_eq_getElem _ _ hi]
      conv_rhs => rw [List.drop_eq_getElem_cons hi, List.take_succ_cons]
      rw [List.append_assoc, List.singleton_append]

theorem find_first_of_skip (pre rest : WString) (ch : Nat) :
    find_first_of (pre ++ rest) ch pre.length
      = (find_first_of rest ch 0).map (fun k => k + pre.length) := by
  induction pre with
  | nil => cases h : find_first_of rest ch 0 <;> simp [h]
  | cons c pre ih =>
      rw [List.cons_append, List.length_cons, find_first_of, ih]
      cases find_first_of rest ch 0 <;> simp [Nat.add_assoc]

theorem find_first_of_absent (s : WString) (ch : Nat) (h : ch ∉ s) :
    find_first_of s ch 0 = none := by
  induction s with
  | nil => rfl
  | cons c s ih =>
      have hc : c ≠ ch := fun e => h (by simp [e])
      have hs : ch ∉ s := fun e => h (by simp [e])
      simp [find_first_of, hc, ih hs]

theorem find_first_of_first (u v : WString) (ch : Nat) (h : ch ∉ u) :
    find_first_of (u ++ ch :: v) ch 0 = some u.length := by
  induction u with
  | nil => simp [find_first_of]
  | cons c u ih =>
      have hc : c ≠ ch := fun e => h (by simp [e])
      have hs : ch ∉ u := fun e => h (by simp [e])
      simp [find_first_of, hc, ih hs]

/-- The position `find_first_of` yields is an index of the string, so
`substr(separatorPos + 1)` is called with an argument that is at most `size()`. -/
theorem find_first_of_lt (s : WString) (ch : Nat) :
    ∀ (pos k : Nat), find_first_of s ch pos = some k → k < s.length := by
  induction s with
  | nil => intro pos k h; simp [find_first_of] at h
  | cons c s ih =>
      intro pos k h
      cases pos with
      | zero =>
          simp only [find_first_of] at h
          split at h
          · simp at h; simp [← h]
          · cases h2 : find_first_of s ch 0 with
            | none => simp [h2] at h
            | some j =>
                simp [h2] at h
                have := ih 0 j h2
                simp; omega
      | succ pos =>
          simp only [find_first_of] at h
          cases h2 : find_first_of s ch pos with
          | none => simp [h2] at h
          | some j =>
              simp [h2] at h
              have := ih pos j h2
              simp; omega

theorem find_if_no_match (args : List WString) (name : WString)
    (h : ∀ b ∈ args, ¬ name <+: b) :
    args.find? (fun arg => starts_with arg name) = none := by
  rw [List.find?_eq_none]
  intro b hb hs
  exact h b hb ((starts_with_iff b name).1 hs)

theorem find_if_first_match (pre post : List WString) (name rest : WString)
    (h : ∀ b ∈ pre, ¬ name <+: b) :
    (pre ++ (name ++ rest) :: post).find? (fun arg => starts_with arg name)
      = some (name ++ rest) := by
  rw [List.find?_append, find_if_no_match pre name h]
  have : starts_with (name ++ rest) name = true :=
    (starts_with_iff _ _).2 (List.prefix_append name rest)
  simp [List.find?_cons, this]

theorem GetArgumentValue_absent (args : List WString) (name : WString)
    (h : ∀ b ∈ args, ¬ name <+: b) : GetArgumentValue args name = [] := by
  unfold GetArgumentValue
  rw [find_if_no_match args name h]

theorem GetArgumentValue_no_separator (pre post : List WString) (name u : WString)
    (hpre : ∀ b ∈ pre, ¬ name <+: b) (hu : wchar '=' ∉ u) :
    GetArgumentValue (pre ++ (name ++ u) :: post) name = [] := by
  unfold GetArgumentValue
  rw [find_if_first_match pre post name u hpre]
  simp only [find_first_of_skip, find_first_of_absent u _ hu, Option.map_none']

theorem GetArgumentValue_value (pre post : List WString) (name u v : WString)
    (hpre : ∀ b ∈ pre, ¬ name <+: b) (hu : wchar '=' ∉ u) :
    GetArgumentValue (pre ++ (name ++ (u ++ wchar '=' :: v)) :: post) name = v := by
  unfold GetArgumentValue
  rw [find_if_first_match pre post name _ hpre]
  simp only [find_first_of_skip, find_first_of_first u v _ hu, Option.map_some', substr]
  rw [← List.append_assoc, show u.length + name.length + 1 = (name ++ u).length + 1 by
    simp [Nat.add_comm]]
  rw [List.drop_append_eq_append_drop]
  simp

theorem GetCmdLineArguments_tokens (t : WString) (rest : List WString) :
    GetCmdLineArguments (some (t :: rest)) ((t :: rest).length : Nat)
      = (if (wcsstr t ExecutableName).isNone then [t] else []) ++ rest := by
  unfold GetCmdLineArguments
  have hpos : ((((t :: rest).length : Nat) : Int) > 0) := by simp
  simp only [hpos, if_true]
  rw [argLoop_eq _ _ _ _ (by simp; omega)]
  simp

/-! ## Claims -/

/-- C1. `GetCmdLineArguments`: when the tokenizer yields the tokens `t₁ :: rest` and
the first token matches the executable name (`wcsstr` finds `troubleshoot.exe`
in it, that is the name occurs in the token), the result is exactly `rest`;
when it yields `t₂ :: rest` and the first token does not match, the result is
exactly `t₂ :: rest`; in both cases every later token is kept, in order. When
the tokenizer yields the null pointer, or `argc ≤ 0`, the result is empty. -/
theorem C1_GetCmdLineArguments (t₁ t₂ : WString) (rest : List WString)
    (argv : Option (List WString)) (argc argc0 : Int)
    (h₁ : ExecutableName <:+: t₁) (h₂ : ¬ ExecutableName <:+: t₂) (h₀ : argc ≤ 0) :
    GetCmdLineArguments (some (t₁ :: rest)) ((t₁ :: rest).length : Nat) = rest
    ∧ GetCmdLineArguments (some (t₂ :: rest)) ((t₂ :: rest).length : Nat) = t₂ :: rest
    ∧ GetCmdLineArguments (some [ExecutableName]) 1 = []
    ∧ GetCmdLineArguments none argc0 = []
    ∧ GetCmdLineArguments argv argc = [] := by
  refine ⟨?_, ?_, ?_, ?_, ?_⟩
  · rw [GetCmdLineArguments_tokens]
    have : (wcsstr t₁ ExecutableName).isNone = false := by
      have := (wcsstr_isSome_iff t₁ ExecutableName).2 h₁
      cases hw : wcsstr t₁ ExecutableName <;> simp [hw] at this ⊢
    simp [this]
  · rw [GetCmdLineArguments_tokens]
    have : (wcsstr t₂ ExecutableName).isNone = true :=
      (wcsstr_isNone_iff t₂ ExecutableName).2 h₂
    simp [this]
  · decide
  · rfl
  · unfold GetCmdLineArguments
    cases argv with
    | none => rfl
    | some l =>
        have : ¬ argc > 0 := by omega
        simp [this]

/-- C1 at the tokens `C:\Tools\troubleshoot.exe`, `--trace-level=DBG`, `-x` and at the tokens
`--scan`, `--trace-level=DBG`, `-x`. -/
theorem C1_GetCmdLineArguments_witness :
    GetCmdLineArguments
        (some (L "C:\\Tools\\troubleshoot.exe" :: [L "--trace-level=DBG", L "-x"]))
        ((L "C:\\Tools\\troubleshoot.exe" :: [L "--trace-level=DBG", L "-x"]).length : Nat)
      = [L "--trace-level=DBG", L "-x"]
    ∧ GetCmdLineArguments (some (L "--scan" :: [L "--trace-level=DBG", L "-x"]))
        ((L "--scan" :: [L "--trace-level=DBG", L "-x"]).length : Nat)
      = L "--scan" :: [L "--trace-level=DBG", L "-x"]
    ∧ GetCmdLineArguments (some [ExecutableName]) 1 = []
    ∧ GetCmdLineArguments none 7 = []
    ∧ GetCmdLineArguments (some [L "a"]) (-1) = [] :=
  C1_GetCmdLineArguments (L "C:\\Tools\\troubleshoot.exe") (L "--scan")
    [L "--trace-level=DBG", L "-x"] (some [L "a"]) (-1) 7
    ⟨L "C:\\Tools\\", [], by decide⟩
    (fun h => by
      have := (wcsstr_isSome_iff (L "--scan") ExecutableName).2 h
      revert this
      decide)
    (by decide)

/-- C2. `GetArgumentValue(args, name)`: the result is decided by the first argument, in
list order, that has `name` as a prefix. If that argument is `name ++ u ++ "=" ++ v`
with no `=` in `u`, the result is `v`, the substring after the first `=` at or
after the end of the prefix; if it is `name ++ u` with no `=` in `u`, the result
is empty; if no argument has the prefix, the result is empty. On
`["--trace-level=DBG"]` the option `--trace-level` has the value `DBG`, on
`["--trace-level"]` and on `[]` it is empty. -/
theorem C2_GetArgumentValue (pre post : List WString) (name u v : WString)
    (hpre : ∀ b ∈ pre, ¬ name <+: b) (hu : wchar '=' ∉ u) :
    GetArgumentValue (pre ++ (name ++ (u ++ wchar '=' :: v)) :: post) name = v
    ∧ GetArgumentValue (pre ++ (name ++ u) :: post) name = []
    ∧ GetArgumentValue pre name = []
    ∧ GetArgumentValue [L "--trace-level=DBG"] (L "--trace-level") = L "DBG"
    ∧ GetArgumentValue [L "--trace-level"] (L "--trace-level") = []
    ∧ GetArgumentValue [] (L "--trace-level") = [] :=
  ⟨GetArgumentValue_value pre post name u v hpre hu,
   GetArgumentValue_no_separator pre post name u hpre hu,
   GetArgumentValue_absent pre name hpre,
   by decide, by decide, by decide⟩

/-- C2 at a list whose third argument is the first with the prefix `--trace-level`. -/
theorem C2_GetArgumentValue_witness :
    GetArgumentValue
        ([L "-v", L "--trace"] ++
          (L "--trace-level" ++ (L "X" ++ wchar '=' :: L "DBG=1")) :: [L "--trace-level=ERR"])
        (L "--trace-level") = L "DBG=1"
    ∧ GetArgumentValue
        ([L "-v", L "--trace"] ++ (L "--trace-level" ++ L "X") :: [L "--trace-level=ERR"])
        (L "--trace-level") = []
    ∧ GetArgumentValue [L "-v", L "--trace"] (L "--trace-level") = []
    ∧ GetArgumentValue [L "--trace-level=DBG"] (L "--trace-level") = L "DBG"
    ∧ GetArgumentValue [L "--trace-level"] (L "--trace-level") = []
    ∧ GetArgumentValue [] (L "--trace-level") = [] :=
  C2_GetArgumentValue [L "-v", L "--trace"] [L "--trace-level=ERR"] (L "--trace-level")
    (L "X") (L "DBG=1")
    (by
      intro b hb hp
      have := (starts_with_iff b (L "--trace-level")).2 hp
      revert this
      revert b
      decide)
    (by decide)

theorem TraceLevelFromString_other (s : WString)
    (hs : s ∉ [L "NON", L "ALW", L "CRT", L "ERR", L "WARN", L "IMP", L "INF", L "DBG"]) :
    TraceLevelFromString s = TraceLevel.tlINF := by
  simp only [List.mem_cons, List.mem_singleton, List.not_mem_nil, or_false, not_or] at hs
  obtain ⟨h1, h2, h3, h4, h5, h6, h7, h8⟩ := hs
  have e1 : (s == L "NON") = false := beq_eq_false_iff_ne.2 h1
  have e2 : (s == L "ALW") = false := beq_eq_false_iff_ne.2 h2
  have e3 : (s == L "CRT") = false := beq_eq_false_iff_ne.2 h3
  have e4 : (s == L "ERR") = false := beq_eq_false_iff_ne.2 h4
  have e5 : (s == L "WARN") = false := beq_eq_false_iff_ne.2 h5
  have e6 : (s == L "IMP") = false := beq_eq_false_iff_ne.2 h6
  have e7 : (s == L "INF") = false := beq_eq_false_iff_ne.2 h7
  have e8 : (s == L "DBG") = false := beq_eq_false_iff_ne.2 h8
  unfold TraceLevelFromString traceLevelToString
  simp only [List.lookup, e1, e2, e3, e4, e5, e6, e7, e8]

/-- C4. `TraceLevelFromString`: each of the tokens NON, ALW, CRT, ERR, WARN, IMP, INF, DBG
maps to its own level; every other string `s`, the empty string included,
maps to Info. So the level computed from `GetArgumentValue(args, "--trace-level")`
is Info when no argument of `args` starts with `--trace-level`, and also when
the first argument that does has no `=` after the option name. -/
theorem C4_TraceLevelFromString (s : WString) (args pre post : List WString) (u : WString)
    (hs : s ∉ [L "NON", L "ALW", L "CRT", L "ERR", L "WARN", L "IMP", L "INF", L "DBG"])
    (hargs : ∀ a ∈ args, ¬ TraceLevelOption <+: a)
    (hpre : ∀ b ∈ pre, ¬ TraceLevelOption <+: b) (hu : wchar '=' ∉ u) :
    TraceLevelFromString (L "NON") = TraceLevel.tlNON
    ∧ TraceLevelFromString (L "ALW") = TraceLevel.tlALW
    ∧ TraceLevelFromString (L "CRT") = TraceLevel.tlCRT
    ∧ TraceLevelFromString (L "ERR") = TraceLevel.tlERR
    ∧ TraceLevelFromString (L "WARN") = TraceLevel.tlWRN
    ∧ TraceLevelFromString (L "IMP") = TraceLevel.tlIMP
    ∧ TraceLevelFromString (L "INF") = TraceLevel.tlINF
    ∧ TraceLevelFromString (L "DBG") = TraceLevel.tlDBG
    ∧ TraceLevelFromString s = TraceLevel.tlINF
    ∧ TraceLevelFromString (L "") = TraceLevel.tlINF
    ∧ TraceLevelFromString (GetArgumentValue args TraceLevelOption) = TraceLevel.tlINF
    ∧ TraceLevelFromString
        (GetArgumentValue (pre ++ (TraceLevelOption ++ u) :: post) TraceLevelOption)
      = TraceLevel.tlINF := by
  refine ⟨by decide, by decide, by decide, by decide, by decide, by decide, by decide,
    by decide, TraceLevelFromString_other s hs, by decide, ?_, ?_⟩
  · rw [GetArgumentValue_absent args _ hargs]; decide
  · rw [GetArgumentValue_no_separator pre post _ u hpre hu]; decide

/-- C4 at the string `dbg` and at argument lists without a `--trace-level=` value. -/
theorem C4_TraceLevelFromString_witness :
    TraceLevelFromString (L "NON") = TraceLevel.tlNON
    ∧ TraceLevelFromString (L "ALW") = TraceLevel.tlALW
    ∧ TraceLevelFromString (L "CRT") = TraceLevel.tlCRT
    ∧ TraceLevelFromString (L "ERR") = TraceLevel.tlERR
    ∧ TraceLevelFromString (L "WARN") = TraceLevel.tlWRN
    ∧ TraceLevelFromString (L "IMP") = TraceLevel.tlIMP
    ∧ TraceLevelFromString (L "INF") = TraceLevel.tlINF
    ∧ TraceLevelFromString (L "DBG") = TraceLevel.tlDBG
    ∧ TraceLevelFromString (L "dbg") = TraceLevel.tlINF
    ∧ TraceLevelFromString (L "") = TraceLevel.tlINF
    ∧ TraceLevelFromString (GetArgumentValue [L "--scan", L "-x=DBG"] TraceLevelOption)
      = TraceLevel.tlINF
    ∧ TraceLevelFromString
        (GetArgumentValue ([L "--scan"] ++ (TraceLevelOption ++ L "DBG") :: [L "-l=ERR"])
          TraceLevelOption)
      = TraceLevel.tlINF :=
  C4_TraceLevelFromString (L "dbg") [L "--scan", L "-x=DBG"] [L "--scan"] [L "-l=ERR"] (L "DBG")
    (by decide)
    (by
      intro b hb hp
      have := (starts_with_iff b TraceLevelOption).2 hp
      revert this
      revert b
      decide)
    (by
      intro b hb hp
      have := (starts_with_iff b TraceLevelOption).2 hp
      revert this
      revert b
      decide)
    (by decide)

/-! ### The three paths of wWinMain -/

theorem wWinMain_exit (w : World) (cmd : WString) :
    (wWinMain w cmd).1 =
      (if w.createInstance = false then 1
       else
         match w.startup with
         | none => 1
         | some entryPoint =>
             entryPoint (w.rawArgs cmd) (static_cast_int32 (w.rawArgs cmd).length)) := by
  unfold wWinMain CreateNativeTracer World.startup World.rawArgs World.args
    World.fullTracePath World.dotNetPath
  cases hc : w.createInstance
  · simp
  · simp only [Bool.not_true, Bool.false_eq_true, if_false]
    split
    · rfl
    · split <;> [split; skip] <;> rfl

theorem wWinMain_entryPoint_events (w : World) (cmd : WString) :
    (wWinMain w cmd).2.filter Event.isEntryPoint =
      (if w.createInstance = false then []
       else
         match w.startup with
         | none => []
         | some _ =>
             [Event.entryPoint (w.rawArgs cmd) (static_cast_int32 (w.rawArgs cmd).length)]) := by
  unfold wWinMain CreateNativeTracer World.startup World.rawArgs World.args
    World.fullTracePath World.dotNetPath
  cases hc : w.createInstance
  · simp [List.filter, Event.isEntryPoint]
  · simp only [Bool.not_true, Bool.false_eq_true, if_false]
    split
    · simp [List.filter, Event.isEntryPoint]
    · split <;> [split; skip] <;> simp [List.filter, Event.isEntryPoint]

theorem ShouldDeleteTraceOnExit_iff (envValue : WString) :
    ShouldDeleteTraceOnExit envValue = true ↔ envValue ≠ L "1" := by
  unfold ShouldDeleteTraceOnExit
  simp

theorem wWinMain_RemoveFile_events (w : World) (cmd : WString) :
    (wWinMain w cmd).2.filter Event.isRemoveFile =
      (if w.createInstance = false then []
       else
         match w.startup with
         | none => []
         | some entryPoint =>
             if entryPoint (w.rawArgs cmd) (static_cast_int32 (w.rawArgs cmd).length)
                  = tool_exit_codes.Regular
                ∧ w.IsExists w.fullTracePath = true
                ∧ w.disableClearingTraces ≠ L "1"
             then [Event.RemoveFile w.fullTracePath (w.RemoveFile w.fullTracePath)]
             else []) := by
  unfold wWinMain CreateNativeTracer World.startup World.rawArgs World.args
    World.fullTracePath World.dotNetPath
  cases hc : w.createInstance
  · simp [List.filter, Event.isRemoveFile]
  · simp only [Bool.not_true, Bool.false_eq_true, if_false]
    split
    · simp [List.filter, Event.isRemoveFile]
    · rename_i entryPoint _
      by_cases h0 : entryPoint
          (buildRawArgs (GetFullTracePath w.traceRoot w.currentTime w.processId)
            (GetCmdLineArguments (w.CommandLineToArgvW cmd).1 (w.CommandLineToArgvW cmd).2))
          (static_cast_int32
            (buildRawArgs (GetFullTracePath w.traceRoot w.currentTime w.processId)
              (GetCmdLineArguments (w.CommandLineToArgvW cmd).1
                (w.CommandLineToArgvW cmd).2)).length) = tool_exit_codes.Regular
      · simp only [h0, if_true, true_and]
        cases he : w.IsExists (GetFullTracePath w.traceRoot w.currentTime w.processId)
        · simp [List.filter, Event.isRemoveFile]
        · by_cases hd : w.disableClearingTraces = L "1"
          · simp [List.filter, Event.isRemoveFile, hd, ShouldDeleteTraceOnExit]
          · have := (ShouldDeleteTraceOnExit_iff _).2 hd
            simp [List.filter, Event.isRemoveFile, hd, this]
      · simp [h0, List.filter, Event.isRemoveFile]

/-- C3. The value `wWinMain` returns is 1 when the bridge cannot be constructed
(`CreateInstance` fails) or when `GetStartupFunction` fails, and then no call of
the entry point is among the events of the run; otherwise it is the integer the
managed entry point returns, and the entry point is called once. The value does
not change when the existence of the trace file, the deletion-suppression
value and the result of the deletion are replaced by any others. -/
theorem C3_wWinMain_exit_code (w : World) (cmd : WString)
    (fileExists : WString → Bool) (suppress : WString) (removed : WString → Bool) :
    (wWinMain w cmd).1 =
      (if w.createInstance = false then 1
       else
         match w.startup with
         | none => 1
         | some entryPoint =>
             entryPoint (w.rawArgs cmd) (static_cast_int32 (w.rawArgs cmd).length))
    ∧ (wWinMain w cmd).2.filter Event.isEntryPoint =
      (if w.createInstance = false then []
       else
         match w.startup with
         | none => []
         | some _ =>
             [Event.entryPoint (w.rawArgs cmd) (static_cast_int32 (w.rawArgs cmd).length)])
    ∧ (wWinMain { w with IsExists := fileExists, disableClearingTraces := suppress,
                         RemoveFile := removed } cmd).1 = (wWinMain w cmd).1 := by
  refine ⟨wWinMain_exit w cmd, wWinMain_entryPoint_events w cmd, ?_⟩
  rw [wWinMain_exit, wWinMain_exit]
  rfl

/-- C6. A run of `wWinMain` attempts to delete a file exactly when the bridge was
constructed, the entry point was resolved and invoked, the code it returned is
the regular-success code 0, the trace file exists and the deletion-suppression
value is not the string "1"; the file it then deletes is the trace file. For
every other managed code, and on both early-failure paths, no deletion is
attempted. -/
theorem C6_trace_file_cleanup (w : World) (cmd : WString) :
    ((∃ e ∈ (wWinMain w cmd).2, e.isRemoveFile = true) ↔
      (w.createInstance = true ∧
        ∃ entryPoint, w.startup = some entryPoint
          ∧ entryPoint (w.rawArgs cmd) (static_cast_int32 (w.rawArgs cmd).length) = 0
          ∧ w.IsExists w.fullTracePath = true
          ∧ w.disableClearingTraces ≠ L "1"))
    ∧ (∀ e ∈ (wWinMain w cmd).2, e.isRemoveFile = true →
        e = Event.RemoveFile w.fullTracePath (w.RemoveFile w.fullTracePath)) := by
  have key := wWinMain_RemoveFile_events w cmd
  have mem : ∀ e, (e ∈ (wWinMain w cmd).2 ∧ e.isRemoveFile = true) ↔
      e ∈ (wWinMain w cmd).2.filter Event.isRemoveFile := by
    intro e; rw [List.mem_filter]
  constructor
  · constructor
    · rintro ⟨e, he, hr⟩
      have hmem := (mem e).1 ⟨he, hr⟩
      rw [key] at hmem
      cases hc : w.createInstance
      · simp [hc] at hmem
      · simp only [hc, Bool.true_eq_false, if_false] at hmem
        cases hs : w.startup with
        | none => simp [hs] at hmem
        | some entryPoint =>
            simp only [hs] at hmem
            split at hmem
            · rename_i hcond
              exact ⟨rfl, entryPoint, rfl, hcond.1, hcond.2.1, hcond.2.2⟩
            · simp at hmem
    · rintro ⟨hc, entryPoint, hs, h0, he, hd⟩
      refine ⟨Event.RemoveFile w.fullTracePath (w.RemoveFile w.fullTracePath), ?_, rfl⟩
      have : Event.RemoveFile w.fullTracePath (w.RemoveFile w.fullTracePath)
          ∈ (wWinMain w cmd).2.filter Event.isRemoveFile := by
        rw [key]
        simp [hc, hs, h0, he, hd, tool_exit_codes.Regular]
      exact ((mem _).2 this).1
  · intro e he hr
    have hmem := (mem e).1 ⟨he, hr⟩
    rw [key] at hmem
    cases hc : w.createInstance
    · simp [hc] at hmem
    · simp only [hc, Bool.true_eq_false, if_false] at hmem
      cases hs : w.startup with
      | none => simp [hs] at hmem
      | some entryPoint =>
          simp only [hs] at hmem
          split at hmem
          · simpa using hmem
          · simp at hmem

/-! ### The raw argument vector -/

theorem c_str_of_no_terminator (s : WString) (h : 0 ∉ s) : c_str s = s := by
  unfold c_str
  rw [List.takeWhile_eq_self_iff]
  intro c hc
  have : c ≠ 0 := fun e => h (e ▸ hc)
  simpa using this

theorem FillBstrArguments_eq (args bstrArgs : List WString) :
    FillBstrArguments args bstrArgs = bstrArgs ++ args.map c_str := by
  unfold FillBstrArguments
  induction args generalizing bstrArgs with
  | nil => simp
  | cons a args ih => simp [List.foldl_cons, ih]

theorem map_c_str_of_no_terminator (args : List WString) (h : ∀ a ∈ args, 0 ∉ a) :
    args.map c_str = args := by
  induction args with
  | nil => rfl
  | cons a args ih =>
      rw [List.map_cons, c_str_of_no_terminator a (h a (by simp)),
        ih (fun b hb => h b (by simp [hb]))]

theorem buildRawArgs_eq (fullTracePath : WString) (args : List WString) :
    buildRawArgs fullTracePath args
      = RawArg.unknown :: RawArg.bstr TracePathOption :: RawArg.bstr (c_str fullTracePath)
          :: (args.map c_str).map RawArg.bstr := by
  unfold buildRawArgs AppendTracesPathToArgs
  simp [FillBstrArguments_eq]

theorem static_cast_int32_small (n : Nat) (h : n < 2 ^ 31) : static_cast_int32 n = n := by
  unfold static_cast_int32
  have h1 : n % 2 ^ 32 = n := Nat.mod_eq_of_lt (by omega)
  rw [h1, if_pos h]

/-- The tokens `GetCmdLineArguments` returns are tokens of the tokenizer (or the empty
string read past the array), so they hold no terminator when the tokens hold none. -/
theorem argLoop_mem (argv : List WString) (n : Nat) :
    ∀ (i : Nat) (args : List WString) (a : WString),
      a ∈ argLoop argv i n args → a ∈ args ∨ a ∈ argv ∨ a = [] := by
  induction n with
  | zero => intro i args a h; left; simpa [argLoop] using h
  | succ n ih =>
      intro i args a h
      rw [argLoop] at h
      rcases ih _ _ _ h with h1 | h1 | h1
      · rw [List.mem_append, List.mem_singleton] at h1
        rcases h1 with h1 | h1
        · exact Or.inl h1
        · by_cases hi : i < argv.length
          · rw [List.getD_eq_getElem _ _ hi] at h1
            exact Or.inr (Or.inl (h1 ▸ List.getElem_mem hi))
          · rw [List.getD_eq_default _ _ (by omega)] at h1
            exact Or.inr (Or.inr h1)
      · exact Or.inr (Or.inl h1)
      · exact Or.inr (Or.inr h1)

theorem GetCmdLineArguments_no_terminator (argv : Option (List WString)) (argc : Int)
    (h : ∀ tokens, argv = some tokens → ∀ t ∈ tokens, 0 ∉ t) :
    ∀ a ∈ GetCmdLineArguments argv argc, 0 ∉ a := by
  intro a ha
  unfold GetCmdLineArguments at ha
  cases argv with
  | none => simp at ha
  | some tokens =>
      simp only at ha
      split at ha
      · rcases argLoop_mem _ _ _ _ _ ha with h1 | h1 | h1
        · split at h1
          · rw [List.mem_singleton] at h1
            by_cases hi : 0 < tokens.length
            · rw [List.getD_eq_getElem _ _ hi] at h1
              exact h tokens rfl a (h1 ▸ List.getElem_mem hi)
            · rw [List.getD_eq_default _ _ (by omega)] at h1
              simp [h1]
          · simp at h1
        · exact h tokens rfl a h1
        · simp [h1]
      · simp at ha

/-- C5. The vector built from a full trace path and a parsed argument list `args`
(both without the terminator unit, `3 + length args` fitting an `int32_t`) is the
interface pointer of the bridge, then `--trace-path`, then the full trace path,
then every element of `args` unmodified and in order; its length, which is the
`argc` handed over, is `3 + length args`. In a run where the bridge is created
and the entry point is resolved, the entry point is called once, with the
vector built from the run's trace path and parsed arguments and its length. -/
theorem C5_raw_argument_vector (w : World) (cmd : WString) (entryPoint : component_entry_point_fn)
    (fullTracePath : WString) (args : List WString)
    (hpath : 0 ∉ fullTracePath) (hargs : ∀ a ∈ args, 0 ∉ a)
    (hlen : 3 + args.length < 2 ^ 31)
    (hc : w.createInstance = true) (hs : w.startup = some entryPoint) :
    buildRawArgs fullTracePath args
      = RawArg.unknown :: RawArg.bstr TracePathOption :: RawArg.bstr fullTracePath
          :: args.map RawArg.bstr
    ∧ (buildRawArgs fullTracePath args).length = 3 + args.length
    ∧ static_cast_int32 (buildRawArgs fullTracePath args).length = 3 + args.length
    ∧ (wWinMain w cmd).2.filter Event.isEntryPoint
        = [Event.entryPoint (buildRawArgs w.fullTracePath (w.args cmd))
            (static_cast_int32 (buildRawArgs w.fullTracePath (w.args cmd)).length)] := by
  have hb : buildRawArgs fullTracePath args
      = RawArg.unknown :: RawArg.bstr TracePathOption :: RawArg.bstr fullTracePath
          :: args.map RawArg.bstr := by
    rw [buildRawArgs_eq, c_str_of_no_terminator _ hpath, map_c_str_of_no_terminator _ hargs]
  have hl : (buildRawArgs fullTracePath args).length = 3 + args.length := by
    rw [hb]; simp; omega
  refine ⟨hb, hl, ?_, ?_⟩
  · rw [hl, static_cast_int32_small _ hlen]; simp
  · rw [wWinMain_entryPoint_events]
    simp [hc, hs, World.rawArgs]

/-- C5 at the path `C:\logs\t.log`, the arguments `--trace-level=DBG`, `-q` and the run of
`demoWorld`. -/
theorem C5_raw_argument_vector_witness :
    buildRawArgs (L "C:\\logs\\t.log") [L "--trace-level=DBG", L "-q"]
      = RawArg.unknown :: RawArg.bstr TracePathOption :: RawArg.bstr (L "C:\\logs\\t.log")
          :: [L "--trace-level=DBG", L "-q"].map RawArg.bstr
    ∧ (buildRawArgs (L "C:\\logs\\t.log") [L "--trace-level=DBG", L "-q"]).length
        = 3 + [L "--trace-level=DBG", L "-q"].length
    ∧ static_cast_int32 (buildRawArgs (L "C:\\logs\\t.log") [L "--trace-level=DBG", L "-q"]).length
        = 3 + [L "--trace-level=DBG", L "-q"].length
    ∧ (wWinMain demoWorld (L "--trace-level=DBG -q")).2.filter Event.isEntryPoint
        = [Event.entryPoint
            (buildRawArgs demoWorld.fullTracePath (demoWorld.args (L "--trace-level=DBG -q")))
            (static_cast_int32
              (buildRawArgs demoWorld.fullTracePath
                (demoWorld.args (L "--trace-level=DBG -q"))).length)] :=
  C5_raw_argument_vector demoWorld (L "--trace-level=DBG -q") (fun _ argc => argc)
    (L "C:\\logs\\t.log") [L "--trace-level=DBG", L "-q"]
    (by decide) (by decide) (by decide) rfl rfl

/-! ### The runtime path -/

theorem GetDotnetPath_lookup_failure (regOpen : Bool) (regQueryValue : Option WString)
    (h : regOpen = false ∨ regQueryValue = none) : GetDotnetPath regOpen regQueryValue = [] := by
  unfold GetDotnetPath
  rcases h with h | h
  · simp [h]
  · cases regOpen <;> simp [h]

/-- C7, counterexample. The registry lookup fails (the key cannot be opened, the
value is absent) and `GetDotnetPath` returns the empty path; the host module is
built on the empty path, resolves the entry point, the entry point is invoked
and `wWinMain` returns its code, 5, not 1. -/
theorem C7_counterexample :
    registryFailsWorld.regOpen = false
    ∧ registryFailsWorld.regQueryValue = none
    ∧ registryFailsWorld.dotNetPath = []
    ∧ (wWinMain registryFailsWorld (L "--trace-level=DBG -q")).1 = 5
    ∧ (wWinMain registryFailsWorld (L "--trace-level=DBG -q")).1 ≠ 1
    ∧ (wWinMain registryFailsWorld (L "--trace-level=DBG -q")).2.filter Event.isEntryPoint
        = [Event.entryPoint
            [RawArg.unknown, RawArg.bstr (L "--trace-path"),
             RawArg.bstr (L "C:\\logs\\troubleshoot_4321_05.03.2024_10.22.07.log"),
             RawArg.bstr (L "--trace-level=DBG"), RawArg.bstr (L "-q")] 5] := by
  decide

/-- C7, amended. When the registry lookup fails, `GetDotnetPath` returns the empty
path and `wWinMain` builds the host module on that empty path without checking
it. The run returns 1 without invoking the entry point exactly when the bridge
cannot be constructed or `GetStartupFunction` fails for the empty path; when
both succeed the entry point is invoked once and its code is returned. -/
theorem C7_runtime_path_lookup_failure (w : World) (cmd : WString)
    (h : w.regOpen = false ∨ w.regQueryValue = none) :
    GetDotnetPath w.regOpen w.regQueryValue = []
    ∧ (w.createInstance = false
        ∨ Event.HostFxrModule [] (hostParams w.productRoot) ∈ (wWinMain w cmd).2)
    ∧ (wWinMain w cmd).1 =
      (if w.createInstance = false then 1
       else
         match w.GetStartupFunction [] (hostParams w.productRoot) with
         | none => 1
         | some entryPoint =>
             entryPoint (w.rawArgs cmd) (static_cast_int32 (w.rawArgs cmd).length))
    ∧ (wWinMain w cmd).2.filter Event.isEntryPoint =
      (if w.createInstance = false then []
       else
         match w.GetStartupFunction [] (hostParams w.productRoot) with
         | none => []
         | some _ =>
             [Event.entryPoint (w.rawArgs cmd)
               (static_cast_int32 (w.rawArgs cmd).length)]) := by
  have hd := GetDotnetPath_lookup_failure w.regOpen w.regQueryValue h
  have hs : w.startup = w.GetStartupFunction [] (hostParams w.productRoot) := by
    unfold World.startup World.dotNetPath
    rw [hd]
  refine ⟨hd, ?_, ?_, ?_⟩
  · cases hc : w.createInstance
    · exact Or.inl rfl
    · right
      unfold wWinMain CreateNativeTracer
      rw [hd]
      simp only [hc, Bool.not_true, Bool.false_eq_true, if_false]
      split
      · simp
      · split <;> [split; skip] <;> simp
  · rw [wWinMain_exit, hs]
  · rw [wWinMain_entryPoint_events, hs]

/-- C7, amended, at the run of `registryFailsWorld`. -/
theorem C7_runtime_path_lookup_failure_witness :
    GetDotnetPath registryFailsWorld.regOpen registryFailsWorld.regQueryValue = []
    ∧ (registryFailsWorld.createInstance = false
        ∨ Event.HostFxrModule [] (hostParams registryFailsWorld.productRoot)
          ∈ (wWinMain registryFailsWorld (L "-q")).2)
    ∧ (wWinMain registryFailsWorld (L "-q")).1 =
      (if registryFailsWorld.createInstance = false then 1
       else
         match registryFailsWorld.GetStartupFunction [] (hostParams registryFailsWorld.productRoot)
         with
         | none => 1
         | some entryPoint =>
             entryPoint (registryFailsWorld.rawArgs (L "-q"))
               (static_cast_int32 (registryFailsWorld.rawArgs (L "-q")).length))
    ∧ (wWinMain registryFailsWorld (L "-q")).2.filter Event.isEntryPoint =
      (if registryFailsWorld.createInstance = false then []
       else
         match registryFailsWorld.GetStartupFunction [] (hostParams registryFailsWorld.productRoot)
         with
         | none => []
         | some _ =>
             [Event.entryPoint (registryFailsWorld.rawArgs (L "-q"))
               (static_cast_int32 (registryFailsWorld.rawArgs (L "-q")).length)]) :=
  C7_runtime_path_lookup_failure registryFailsWorld (L "-q") (Or.inl rfl)

/-! ### The bridge after Deinit -/

/-- C8, counterexample. After `Deinit()` a call of `Trace` (level 0, message `x`)
and a call of `Flush` do not complete: each goes through a null pointer. Before
`Deinit()` the same calls return. -/
theorem C8_counterexample :
    (liveBridge.Deinit.Trace (fun m => some m) 0 (L "x")).1 = Outcome.nullDereference
    ∧ (liveBridge.Deinit.Trace (fun m => some m) 0 (L "x")).1 ≠ Outcome.returned
    ∧ liveBridge.Deinit.Flush.1 = Outcome.nullDereference
    ∧ (liveBridge.Trace (fun m => some m) 0 (L "x")).1 = Outcome.returned
    ∧ liveBridge.Flush.1 = Outcome.returned := by
  decide

/-- C8, amended. After `Deinit()` the bridge holds no reference to the tracer and
the flusher, so for every level and message a call of `Trace`, and a call of
`Flush`, performs no operation on the Diagnostic Channel: no `ShouldTrace`,
`PrepareMsg`, `TraceMsg` or `Flush` call reaches it. The call is not guarded: it
ends in the use of the null pointer instead of returning. -/
theorem C8_no_channel_call_after_Deinit (b : NativeTracerImpl)
    (ConvertEx : WString → Option (List Nat)) (level : Nat) (message : WString) :
    b.Deinit.m_tracer = none
    ∧ b.Deinit.m_flusher = none
    ∧ (b.Deinit.Trace ConvertEx level message).2 = []
    ∧ b.Deinit.Flush.2 = []
    ∧ (b.Deinit.Trace ConvertEx level message).1 = Outcome.nullDereference
    ∧ b.Deinit.Flush.1 = Outcome.nullDereference :=
  ⟨rfl, rfl, rfl, rfl, rfl, rfl⟩

/-! ### The trace file path -/

/-- On every path of `wWinMain` the scope guard runs `CoUninitialize` exactly once;
`Deinit` is executed exactly in the runs that invoke the entry point. -/
theorem wWinMain_teardown (w : World) (cmd : WString) :
    (wWinMain w cmd).2.count Event.CoUninitialize = 1
    ∧ (wWinMain w cmd).2.count Event.Deinit =
        (if w.createInstance = false then 0
         else
           match w.startup with
           | none => 0
           | some _ => 1) := by
  unfold wWinMain CreateNativeTracer World.startup World.dotNetPath
  cases hc : w.createInstance
  · simp [List.count_cons]
  · simp only [Bool.not_true, Bool.false_eq_true, if_false]
    split
    · simp [List.count_cons]
    · split <;> [split; skip] <;> simp [List.count_cons]

end Loader
